import Mathlib

set_option linter.unusedVariables false
set_option maxRecDepth 8192

/-!
Verification development for the rushgen backend (`src/server.js`), a relay in
front of two Kling image-to-video provider variants.  The JavaScript source is
shallowly embedded: the network (`fetch`) is an oracle mapping a request and an
attempt index to an outcome, `JSON.parse` is an oracle mapping text to an
optional JSON value, timers are recorded in a trace, and the file-backed job
map is threaded as explicit state.
-/

namespace RushGen

/-- Model of `String.prototype.toUpperCase` (ASCII). -/
def jsToUpper (s : String) : String := ⟨s.data.map Char.toUpper⟩

/-- Model of `String.prototype.toLowerCase` (ASCII). -/
def jsToLower (s : String) : String := ⟨s.data.map Char.toLower⟩

/-- Model of `String.prototype.startsWith`. -/
def jsStartsWith (s pat : String) : Bool := pat.data.isPrefixOf s.data

/-- Model of `String.prototype.slice(n)` for a nonnegative start. -/
def jsDrop (s : String) (n : Nat) : String := ⟨s.data.drop n⟩

/-- Model of `String.prototype.trim`: strip whitespace from both ends. -/
def jsTrim (s : String) : String :=
  ⟨((s.data.dropWhile Char.isWhitespace).reverse.dropWhile Char.isWhitespace).reverse⟩

/-- Model of `Array.prototype.join(",")` on already-rendered elements. -/
def joinComma : List String → String
  | [] => ""
  | [s] => s
  | s :: rest => s ++ "," ++ joinComma rest

/-- JSON-like values: the parsed bodies the server manipulates. -/
inductive JVal where
  | null
  | bool (b : Bool)
  | num (n : Int)
  | str (s : String)
  | arr (elems : List JVal)
  | obj (fields : List (String × JVal))

mutual

/-- JavaScript `String(v)` coercion on JSON values. -/
def jsToString : JVal → String
  | .null => "null"
  | .bool true => "true"
  | .bool false => "false"
  | .num n => toString n
  | .str s => s
  | .arr xs => joinComma (jsToStringArr xs)
  | .obj _ => "[object Object]"

/-- Elements of an array as rendered by `Array.prototype.join` (null → ""). -/
def jsToStringArr : List JVal → List String
  | [] => []
  | .null :: xs => "" :: jsToStringArr xs
  | x :: xs => jsToString x :: jsToStringArr xs

end

/-- `String(v)` where `v` may be `undefined` (modelled as `none`). -/
def jsToStringOpt : Option JVal → String
  | none => "undefined"
  | some v => jsToString v

/-- JavaScript falsiness of a JSON value. -/
def jsFalsy : JVal → Bool
  | .null => true
  | .bool b => !b
  | .num n => n == 0
  | .str s => s == ""
  | .arr _ => false
  | .obj _ => false

/-- Falsiness including `undefined`. -/
def jsFalsyOpt : Option JVal → Bool
  | none => true
  | some v => jsFalsy v

/-- Property access `v[key]` on a JSON value (`undefined` for non-objects). -/
def jget (v : JVal) (key : String) : Option JVal :=
  match v with
  | .obj fields => (fields.find? (fun kv => kv.1 == key)).map (fun kv => kv.2)
  | _ => none

/-- Optional chain `v?.k1?.k2`. -/
def jget2 (v : JVal) (k1 k2 : String) : Option JVal :=
  match jget v k1 with
  | some w => jget w k2
  | none => none

/-- Outcome of one physical fetch attempt: either an HTTP response was
received (status code plus body text), or a connection-level failure
(timeout / DNS / reset, including the 45s abort) occurred, identified by a
numeric error id. -/
inductive FetchOutcome where
  | response (status : Nat) (text : String)
  | transportError (e : Nat)

/-- The `{ok, status, data}` value `fetchJsonRetry` resolves with
(server.js line 86). -/
structure FetchResult where
  ok : Bool
  status : Nat
  data : JVal

/-- Observable side effects of one `fetchJsonRetry` run: how many `fetch`
calls were made and which `sleep(ms)` delays were awaited, in order. -/
structure RetryTrace where
  calls : Nat
  sleeps : List Nat
  deriving DecidableEq, Repr

/-- An outbound request as assembled by the server: URL, HTTP method, the
`x-freepik-api-key` header value, and the JSON body if any (the
`JSON.stringify` of the payload is left unserialized). -/
structure Req where
  url : String
  method : String
  apiKey : String
  body : Option JVal

/-- The network oracle: what happens on attempt `i` of a given request. -/
def Net := Req → Nat → FetchOutcome

/-- The `JSON.parse` oracle: `none` models a parse exception. -/
def Parse := String → Option JVal

/-- Body handling of `fetchJsonRetry` (server.js lines 78-84): empty text
becomes `{}`, unparseable text becomes `{raw: text}`. -/
def parseBody (parse : Parse) (text : String) : JVal :=
  if text = "" then .obj []
  else
    match parse text with
    | some j => j
    | none => .obj [("raw", .str text)]

/-- The retry loop of `fetchJsonRetry` (server.js lines 67-93).  `i` is the
current attempt index, the second argument the remaining iterations, the
third the `lastErr` variable.  A received response returns immediately as
`{ok: r.ok, status, data}` where `fetch`'s `Response.ok` is
`200 ≤ status ≤ 299`; a transport failure records the error, sleeps
`900 + i * 1100` ms and retries; when iterations are exhausted the last
error is thrown (`Except.error`). -/
def fetchJsonRetryAux (f : Nat → FetchOutcome) (parse : Parse) :
    Nat → Nat → Option Nat → Except (Option Nat) FetchResult × RetryTrace
  | _, 0, lastErr => (.error lastErr, ⟨0, []⟩)
  | i, rem + 1, _ =>
    match f i with
    | .response st tx =>
        (.ok ⟨decide (200 ≤ st ∧ st ≤ 299), st, parseBody parse tx⟩, ⟨1, []⟩)
    | .transportError e =>
        let rest := fetchJsonRetryAux f parse (i + 1) rem (some e)
        (rest.1, ⟨rest.2.calls + 1, (900 + i * 1100) :: rest.2.sleeps⟩)

/-- `fetchJsonRetry(url, opts, retries)` (server.js line 67); the source
defaults `retries` to 3 and every call site uses that default. -/
def fetchJsonRetry (f : Nat → FetchOutcome) (parse : Parse) (retries : Nat) :
    Except (Option Nat) FetchResult × RetryTrace :=
  fetchJsonRetryAux f parse 0 retries none

/-- The list of backoff delays produced by `k` consecutive transport
failures starting at attempt index `i`. -/
def sleepList (i : Nat) : Nat → List Nat
  | 0 => []
  | k + 1 => (900 + i * 1100) :: sleepList (i + 1) k

/-- `normalizeStatus` (server.js lines 95-101). -/
def normalizeStatus (statusRaw : Option JVal) : String :=
  let s := jsToUpper (if jsFalsyOpt statusRaw then "" else jsToStringOpt statusRaw)
  if s = "COMPLETED" then "done"
  else if s = "FAILED" then "error"
  else if s = "CREATED" ∨ s = "IN_PROGRESS" then "processing"
  else "processing"

/-- `extractGeneratedUrl` (server.js lines 103-107). -/
def extractGeneratedUrl (resp : JVal) : Option JVal :=
  match jget2 resp "data" "generated" with
  | some (.arr (x :: _)) => some x
  | _ => none

def FREEPIK_BASE : String := "https://api.freepik.com"

/-- One entry of the provider table. -/
structure ProviderCfg where
  createUrl : String
  statusUrl : String → String

/-- The property names an object literal inherits from `Object.prototype`
(including the Annex B legacy accessors): bracket lookup on `PROVIDERS`
with one of these keys yields a truthy inherited value, not `undefined`. -/
def protoKeys : List String :=
  ["constructor", "hasOwnProperty", "isPrototypeOf", "propertyIsEnumerable",
   "toLocaleString", "toString", "valueOf", "__proto__",
   "__defineGetter__", "__defineSetter__", "__lookupGetter__", "__lookupSetter__"]

/-- Result of the bracket lookup `PROVIDERS[key]`: an own entry (a provider
config), a truthy value inherited from `Object.prototype` (a function or,
for `__proto__`, an object — in either case not a provider config), or
`undefined`. -/
inductive JsLookup where
  | cfg (c : ProviderCfg)
  | protoInherited
  | undefinedProp

/-- JavaScript truthiness of the looked-up value: own entries and inherited
prototype members are truthy, `undefined` is falsy. -/
def lookupTruthy : JsLookup → Bool
  | .undefinedProp => false
  | _ => true

/-- The `PROVIDERS` table (server.js lines 112-124) seen through bracket
lookup.  Note the documented mismatch: the status path of `kling-2.1-pro`
is `kling-v2-1`, not `kling-v2-1-pro`.  A key outside the two own entries
traverses the prototype chain, so `Object.prototype` member names are
truthy rather than `undefined`. -/
def PROVIDERS (key : String) : JsLookup :=
  if key = "kling-2.5-pro" then
    .cfg ⟨FREEPIK_BASE ++ "/v1/ai/image-to-video/kling-v2-5-pro",
          fun taskId => FREEPIK_BASE ++ "/v1/ai/image-to-video/kling-v2-5-pro/" ++ taskId⟩
  else if key = "kling-2.1-pro" then
    .cfg ⟨FREEPIK_BASE ++ "/v1/ai/image-to-video/kling-v2-1-pro",
          fun taskId => FREEPIK_BASE ++ "/v1/ai/image-to-video/kling-v2-1/" ++ taskId⟩
  else if protoKeys.contains key then .protoInherited
  else .undefinedProp

/-- `pickProvider` (server.js lines 126-130): `if (PROVIDERS[key]) return
key` is a truthiness test on the bracket lookup, so inherited prototype
names such as "toString" are returned unchanged. -/
def pickProvider (p : Option String) : String :=
  let key := jsTrim (p.getD "")
  if lookupTruthy (PROVIDERS key) then key else "kling-2.5-pro"

/-- The candidate order built by `fetchStatusWithFallback`
(server.js lines 135-142): the preferred provider first when truthy as a
string and `PROVIDERS[preferredProvider]` is truthy (which includes
inherited prototype names), then the two known providers in canonical
order, without duplicates. -/
def tryOrder (preferredProvider : Option String) : List String :=
  let t0 : List String :=
    match preferredProvider with
    | some p => if p ≠ "" ∧ lookupTruthy (PROVIDERS p) then [p] else []
    | none => []
  let t1 := if t0.contains "kling-2.5-pro" then t0 else t0 ++ ["kling-2.5-pro"]
  if t1.contains "kling-2.1-pro" then t1 else t1 ++ ["kling-2.1-pro"]

/-- An exception escaping the orchestration code: either the last transport
error thrown by `fetchJsonRetry` (`none` models a thrown null), or the
`TypeError` raised when the looked-up provider value is not a config — then
`cfg.statusUrl` is `undefined` (or the base is `undefined`) and invoking it
throws. -/
inductive JsErr where
  | thrown (e : Option Nat)
  | typeError

/-- The per-candidate call of the fallback loop (server.js lines 147-151):
look up the provider and hit its status endpoint through `fetchJsonRetry`
(3 attempts).  When the lookup yields an inherited prototype member, the
source evaluates `cfg.statusUrl(taskId)` with `cfg.statusUrl` undefined and
throws a `TypeError` before any fetch call; likewise (on the unreachable
`undefined` lookup) property access on `undefined` throws. -/
def callProvider (net : Net) (parse : Parse) (taskId apiKey provider : String) :
    Except JsErr FetchResult × RetryTrace :=
  match PROVIDERS provider with
  | .cfg cfg =>
    let r := fetchJsonRetry (net ⟨cfg.statusUrl taskId, "GET", apiKey, none⟩) parse 3
    (r.1.mapError JsErr.thrown, r.2)
  | .protoInherited => (.error .typeError, ⟨0, []⟩)
  | .undefinedProp => (.error .typeError, ⟨0, []⟩)

/-- Result of the fallback resolver together with the providers it actually
reached in the loop, in order. -/
structure FallbackOut where
  result : Except JsErr (Option (String × FetchResult))
  attempted : List String

/-- The `for (const provider of tryOrder)` loop of `fetchStatusWithFallback`
(server.js lines 146-168): return on the first `ok` response, break (and
return that failed result) on 401/403, otherwise remember the failure and
continue; when candidates run out, return the last recorded result. -/
def fallbackLoop (net : Net) (parse : Parse) (taskId apiKey : String) :
    List String → Option (String × FetchResult) → FallbackOut
  | [], last => ⟨.ok last, []⟩
  | provider :: rest, last =>
    match (callProvider net parse taskId apiKey provider).1 with
    | .error e => ⟨.error e, [provider]⟩
    | .ok r =>
      if r.ok then ⟨.ok (some (provider, r)), [provider]⟩
      else if r.status = 401 ∨ r.status = 403 then ⟨.ok (some (provider, r)), [provider]⟩
      else
        let out := fallbackLoop net parse taskId apiKey rest (some (provider, r))
        ⟨out.result, provider :: out.attempted⟩

/-- `fetchStatusWithFallback` (server.js lines 134-169). -/
def fetchStatusWithFallback (net : Net) (parse : Parse) (taskId apiKey : String)
    (preferredProvider : Option String) : FallbackOut :=
  fallbackLoop net parse taskId apiKey (tryOrder preferredProvider) none

/-- One record of the job map (`jobs[taskId] = {provider, createdAt}`). -/
structure JobRec where
  provider : String
  createdAt : Nat
  deriving DecidableEq, Repr

/-- The jobs file contents: an ordered string-keyed object. -/
abbrev Jobs := List (String × JobRec)

/-- `getJob` (server.js lines 56-59): the object lookup `jobs[taskId]`. -/
def getJob (jobs : Jobs) (taskId : String) : Option JobRec :=
  match jobs with
  | [] => none
  | kv :: rest => if kv.1 == taskId then some kv.2 else getJob rest taskId

/-- JavaScript object update `jobs[taskId] = v`: replace in place when the
key exists, append otherwise. -/
def setJob (jobs : Jobs) (taskId : String) (v : JobRec) : Jobs :=
  if jobs.any (fun kv => kv.1 == taskId) then
    jobs.map (fun kv => if kv.1 == taskId then (taskId, v) else kv)
  else jobs ++ [(taskId, v)]

/-- `saveJob` (server.js lines 51-55); `now` models `Date.now()`. -/
def saveJob (jobs : Jobs) (taskId provider : String) (now : Nat) : Jobs :=
  setJob jobs taskId ⟨provider, now⟩

/-- `getApiKeyFromReq` (server.js lines 23-28), applied to the
`authorization` header value. -/
def getApiKeyFromReq (h : String) : Option String :=
  if !(jsStartsWith (jsToLower h) "bearer ") then none
  else
    let key := jsTrim (jsDrop h 7)
    if key = "" then none else some key

/-- `meta?.provider ? pickProvider(meta.provider) : null`
(server.js lines 267 and 320). -/
def preferredOf (jobs : Jobs) (taskId : String) : Option String :=
  match getJob jobs taskId with
  | some m => if m.provider ≠ "" then some (pickProvider (some m.provider)) else none
  | none => none

/-- Distinct return sites of the `/status/:jobId` handler. -/
inductive StatusResp where
  | authErr
  | fetchFailed
  | statusFailed (httpStatus : Nat) (provider : String) (detail : JVal)
  | ok (status : String) (rawStatus : Option JVal) (provider : String)
  | serverError (e : JsErr)

/-- The `/status/:jobId` handler (server.js lines 254-305), returning the
response together with the job map after the request. -/
def statusHandler (net : Net) (parse : Parse) (now : Nat) (jobs : Jobs)
    (authHeader taskId : String) : StatusResp × Jobs :=
  match getApiKeyFromReq authHeader with
  | none => (.authErr, jobs)
  | some apiKey =>
    let meta := getJob jobs taskId
    match (fetchStatusWithFallback net parse taskId apiKey (preferredOf jobs taskId)).result with
    | .error e => (.serverError e, jobs)
    | .ok none => (.fetchFailed, jobs)
    | .ok (some (provider, r)) =>
      if r.ok = false then (.statusFailed r.status provider r.data, jobs)
      else
        let statusRaw := jget2 r.data "data" "status"
        let st := normalizeStatus statusRaw
        let jobs1 := if meta.isNone then saveJob jobs taskId provider now else jobs
        (.ok st statusRaw provider, jobs1)

/-- Distinct return sites of the `/result/:jobId` handler. -/
inductive ResultResp where
  | authErr
  | fetchFailed
  | resultFailed (httpStatus : Nat) (provider : String) (detail : JVal)
  | notCompleted (provider : String) (rawStatus : Option JVal)
  | emptyUrl (provider : String) (detail : JVal)
  | ok (videoUrl : JVal) (provider : String)
  | serverError (e : JsErr)

/-- The `/result/:jobId` handler (server.js lines 308-366). -/
def resultHandler (net : Net) (parse : Parse) (now : Nat) (jobs : Jobs)
    (authHeader taskId : String) : ResultResp × Jobs :=
  match getApiKeyFromReq authHeader with
  | none => (.authErr, jobs)
  | some apiKey =>
    let meta := getJob jobs taskId
    match (fetchStatusWithFallback net parse taskId apiKey (preferredOf jobs taskId)).result with
    | .error e => (.serverError e, jobs)
    | .ok none => (.fetchFailed, jobs)
    | .ok (some (provider, r)) =>
      if r.ok = false then (.resultFailed r.status provider r.data, jobs)
      else
        let statusRaw := jget2 r.data "data" "status"
        if jsToUpper (jsToStringOpt statusRaw) ≠ "COMPLETED" then
          (.notCompleted provider statusRaw, jobs)
        else
          match extractGeneratedUrl r.data with
          | none => (.emptyUrl provider r.data, jobs)
          | some url =>
            if jsFalsy url then (.emptyUrl provider r.data, jobs)
            else
              let jobs1 := if meta.isNone then saveJob jobs taskId provider now else jobs
              (.ok url provider, jobs1)

/-- The already-defaulted multipart body fields of `/generate`
(server.js lines 187-194); `cfg_scale` is carried abstractly as an integer
since it never influences control flow. -/
structure GenBody where
  provider : Option String
  prompt : String
  negative_prompt : String
  duration : String
  cfg_scale : Int
  image_tail : String
  webhook_url : String

/-- Payload construction of `/generate` (server.js lines 201-215). -/
def buildPayload (provider : String) (b : GenBody) (imageBase64 : String) : JVal :=
  let base : List (String × JVal) :=
    [("duration", .str b.duration), ("image", .str imageBase64),
     ("prompt", .str b.prompt), ("negative_prompt", .str b.negative_prompt),
     ("cfg_scale", .num b.cfg_scale)]
  let withTail :=
    if provider = "kling-2.1-pro" ∧ b.image_tail ≠ "" ∧ b.image_tail ≠ "null" then
      base ++ [("image_tail", .str b.image_tail)]
    else base
  let withHook :=
    if b.webhook_url ≠ "" ∧ jsTrim b.webhook_url ≠ "" then
      withTail ++ [("webhook_url", .str (jsTrim b.webhook_url))]
    else withTail
  .obj withHook

/-- Distinct return sites of the `/generate` handler. -/
inductive GenResp where
  | authErr
  | noImage
  | createFailed (httpStatus : Nat) (provider : String) (detail : JVal)
  | noTaskId (provider : String) (detail : JVal)
  | ok (jobId : JVal) (provider : String)
  | serverError (e : JsErr)

/-- The `/generate` handler (server.js lines 175-251); `image` is the
base64 of the uploaded file, `none` when no file was attached.  When
`pickProvider` passes an inherited prototype name through, `cfg` is not a
config: `cfg.createUrl` is `undefined`, every fetch attempt rejects and
the thrown error surfaces through the catch as a 500 with no store write —
abstracted here as the thrown-TypeError 500.  The `undefined` lookup is
unreachable (`pickProvider` only returns truthy keys) and modelled the
same way. -/
def generateHandler (net : Net) (parse : Parse) (now : Nat) (jobs : Jobs)
    (authHeader : String) (b : GenBody) (image : Option String) : GenResp × Jobs :=
  match getApiKeyFromReq authHeader with
  | none => (.authErr, jobs)
  | some apiKey =>
    let provider := pickProvider b.provider
    match image with
    | none => (.noImage, jobs)
    | some imageBase64 =>
      match PROVIDERS provider with
      | .protoInherited => (.serverError .typeError, jobs)
      | .undefinedProp => (.serverError .typeError, jobs)
      | .cfg cfg =>
        let payload := buildPayload provider b imageBase64
        match (fetchJsonRetry (net ⟨cfg.createUrl, "POST", apiKey, some payload⟩) parse 3).1 with
        | .error e => (.serverError (.thrown e), jobs)
        | .ok r =>
          if r.ok = false then (.createFailed r.status provider r.data, jobs)
          else
            match jget2 r.data "data" "task_id" with
            | none => (.noTaskId provider r.data, jobs)
            | some tidv =>
              if jsFalsy tidv then (.noTaskId provider r.data, jobs)
              else (.ok tidv provider, saveJob jobs (jsToString tidv) provider now)

/-- One inbound request against a handler. -/
inductive Op where
  | create (authHeader : String) (b : GenBody) (image : Option String)
  | status (authHeader taskId : String)
  | result (authHeader taskId : String)

/-- Effect of one handler invocation on the job map. -/
def step (net : Net) (parse : Parse) (now : Nat) (jobs : Jobs) : Op → Jobs
  | .create a b img => (generateHandler net parse now jobs a b img).2
  | .status a tid => (statusHandler net parse now jobs a tid).2
  | .result a tid => (resultHandler net parse now jobs a tid).2

/-! ## Concrete oracles used to instantiate the theorems -/

/-- A parse oracle that always fails (irrelevant for empty bodies). -/
def parseNone : Parse := fun _ => none

/-- An attempt oracle answering 500 immediately. -/
def fC3 : Nat → FetchOutcome := fun _ => .response 500 "boom"

/-- An attempt oracle failing at the transport level on every attempt. -/
def fC4 : Nat → FetchOutcome := fun i => .transportError i

/-- A network where the 2.5 status endpoint of task "t" is a 404 and
everything else succeeds. -/
def netC1 : Net := fun req _ =>
  if req.url = FREEPIK_BASE ++ "/v1/ai/image-to-video/kling-v2-5-pro/t" then .response 404 ""
  else .response 200 ""

/-- A network answering 401 everywhere. -/
def netC2 : Net := fun _ _ => .response 401 ""

/-- A network answering 200 with an empty body everywhere. -/
def netOk : Net := fun _ _ => .response 200 ""

/-- Upstream body: task COMPLETED, but the first generated URL is the empty
string. -/
def dEmptyFirst : JVal :=
  .obj [("data", .obj [("status", .str "COMPLETED"), ("generated", .arr [.str ""])])]

/-- Upstream body: task COMPLETED with a real generated URL. -/
def dGoodUrl : JVal :=
  .obj [("data", .obj [("status", .str "COMPLETED"),
                       ("generated", .arr [.str "https://cdn/video.mp4"])])]

/-- A network answering 200 with body text "B" everywhere. -/
def netB : Net := fun _ _ => .response 200 "B"

/-- Parses "B" to the COMPLETED-but-empty-URL body. -/
def parseEmptyFirst : Parse := fun s => if s = "B" then some dEmptyFirst else none

/-- Parses "B" to the COMPLETED-with-URL body. -/
def parseGoodUrl : Parse := fun s => if s = "B" then some dGoodUrl else none

/-- Parses "B" to a creation response assigning task id "t". -/
def parseTaskT : Parse :=
  fun s => if s = "B" then some (.obj [("data", .obj [("task_id", .str "t")])]) else none

/-- A job map already routing task "t" to kling-2.5-pro. -/
def jobsT : Jobs := [("t", ⟨"kling-2.5-pro", 0⟩)]

/-- A create request body asking for the kling-2.1-pro provider. -/
def bodyC8 : GenBody := ⟨some "kling-2.1-pro", "", "", "5", 0, "", ""⟩

/-- A create request body asking for the default provider. -/
def bodyDefault : GenBody := ⟨none, "", "", "5", 0, "", ""⟩

/-- Parses "B" to a creation response assigning task id "t2". -/
def parseTask2 : Parse :=
  fun s => if s = "B" then some (.obj [("data", .obj [("task_id", .str "t2")])]) else none

/-! ## General lemmas about the embedded definitions -/

/-- A key looked up as an inherited prototype member is nonempty and is
neither of the two own provider identities. -/
theorem PROVIDERS_of_protoInherited {s : String}
    (hs : PROVIDERS s = .protoInherited) :
    s ≠ "" ∧ s ≠ "kling-2.5-pro" ∧ s ≠ "kling-2.1-pro" := by
  refine ⟨?_, ?_, ?_⟩ <;> intro he <;> subst he
  · exact JsLookup.noConfusion ((show PROVIDERS "" = JsLookup.undefinedProp from rfl) ▸ hs)
  · exact JsLookup.noConfusion hs
  · exact JsLookup.noConfusion hs

/-- When the preferred provider is not an inherited prototype name, the
candidate list is fully determined: the preferred provider comes first
when it is a known identity, and the remainder follows in the canonical
order, deduplicated. -/
theorem tryOrder_eq (pref : Option String)
    (hp : ∀ s, pref = some s → PROVIDERS s ≠ .protoInherited) :
    tryOrder pref =
      if pref = some "kling-2.1-pro" then ["kling-2.1-pro", "kling-2.5-pro"]
      else ["kling-2.5-pro", "kling-2.1-pro"] := by
  match pref with
  | none => rfl
  | some p =>
    by_cases h1 : p = "kling-2.5-pro"
    · subst h1; rfl
    · by_cases h2 : p = "kling-2.1-pro"
      · subst h2; rfl
      · have hnp := hp p rfl
        have hundefinedProp : PROVIDERS p = .undefinedProp := by
          rw [PROVIDERS, if_neg h1, if_neg h2]
          by_cases h3 : protoKeys.contains p = true
          · exact absurd (by rw [PROVIDERS, if_neg h1, if_neg h2, if_pos h3]) hnp
          · rw [if_neg h3]
        simp [tryOrder, hundefinedProp, h2, lookupTruthy]

/-- A preferred provider whose lookup is an inherited prototype member is
pushed first, ahead of the two known providers. -/
theorem tryOrder_protoInherited (s : String) (hs : PROVIDERS s = .protoInherited) :
    tryOrder (some s) = [s, "kling-2.5-pro", "kling-2.1-pro"] := by
  obtain ⟨h0, h1, h2⟩ := PROVIDERS_of_protoInherited hs
  simp [tryOrder, hs, h0, h1, h2, Ne.symm h1, Ne.symm h2, lookupTruthy]

/-- The `ok` flag of a result of the retry client is determined by the
status code: it is `fetch`'s success-range test. -/
theorem fetchJsonRetryAux_ok_field (f : Nat → FetchOutcome) (parse : Parse) :
    ∀ rem i le r, (fetchJsonRetryAux f parse i rem le).1 = .ok r →
      r.ok = decide (200 ≤ r.status ∧ r.status ≤ 299) := by
  intro rem
  induction rem with
  | zero => intro i le r h; simp [fetchJsonRetryAux] at h
  | succ n ih =>
    intro i le r h
    cases hf : f i with
    | response st tx =>
      simp only [fetchJsonRetryAux, hf, Except.ok.injEq] at h
      subst h; rfl
    | transportError e =>
      simp only [fetchJsonRetryAux, hf] at h
      exact ih (i + 1) (some e) r h

theorem callProvider_ok_field (net : Net) (parse : Parse) (taskId apiKey p : String)
    (r : FetchResult) (h : (callProvider net parse taskId apiKey p).1 = .ok r) :
    r.ok = decide (200 ≤ r.status ∧ r.status ≤ 299) := by
  cases hp : PROVIDERS p with
  | cfg cfg =>
    have h' : ((fetchJsonRetry (net ⟨cfg.statusUrl taskId, "GET", apiKey, none⟩)
        parse 3).1).mapError JsErr.thrown = .ok r := by
      rw [callProvider, hp] at h; exact h
    cases hf : (fetchJsonRetry (net ⟨cfg.statusUrl taskId, "GET", apiKey, none⟩)
        parse 3).1 with
    | error e => rw [hf] at h'; simp [Except.mapError] at h'
    | ok r0 =>
      rw [hf] at h'
      have hr0 : r0 = r := by simpa [Except.mapError] using h'
      subst hr0
      exact fetchJsonRetryAux_ok_field _ parse 3 0 none r0 hf
  | protoInherited => rw [callProvider, hp] at h; simp at h
  | undefinedProp => rw [callProvider, hp] at h; simp at h

/-- With an inherited prototype name as candidate, the per-candidate call
throws the `TypeError` without making any fetch call. -/
theorem callProvider_protoInherited (net : Net) (parse : Parse)
    (taskId apiKey s : String) (hs : PROVIDERS s = .protoInherited) :
    callProvider net parse taskId apiKey s = (.error .typeError, ⟨0, []⟩) := by
  rw [callProvider, hs]

theorem sleepList_eq : ∀ (n i : Nat),
    sleepList i n = (List.range n).map (fun j => 900 + (i + j) * 1100) := by
  intro n
  induction n with
  | zero => intro i; simp [sleepList]
  | succ m ih =>
    intro i
    rw [sleepList, ih (i + 1), List.range_succ_eq_map, List.map_cons, List.map_map]
    congr 1
    apply List.map_congr_left
    intro j hj
    simp only [Function.comp_apply]
    omega

/-- If the first `k` attempts fail at the transport level and attempt `k`
receives an HTTP response, the retry loop stops there and returns that
response. -/
theorem fetchJsonRetryAux_response (f : Nat → FetchOutcome) (parse : Parse) :
    ∀ (k i rem : Nat) (le : Option Nat) (st : Nat) (tx : String),
      (∀ j, j < k → ∃ e, f (i + j) = .transportError e) →
      f (i + k) = .response st tx → k < rem →
      fetchJsonRetryAux f parse i rem le =
        (.ok ⟨decide (200 ≤ st ∧ st ≤ 299), st, parseBody parse tx⟩,
         ⟨k + 1, sleepList i k⟩) := by
  intro k
  induction k with
  | zero =>
    intro i rem le st tx hpre hresp hlt
    cases rem with
    | zero => exact absurd hlt (Nat.not_lt_zero _)
    | succ m =>
      rw [Nat.add_zero] at hresp
      simp [fetchJsonRetryAux, hresp, sleepList]
  | succ n ih =>
    intro i rem le st tx hpre hresp hlt
    obtain ⟨e0, he0⟩ := hpre 0 (Nat.succ_pos n)
    rw [Nat.add_zero] at he0
    cases rem with
    | zero => exact absurd hlt (Nat.not_lt_zero _)
    | succ m =>
      have hrec := ih (i + 1) m (some e0) st tx
        (fun j hj => by
          obtain ⟨e, he⟩ := hpre (j + 1) (Nat.succ_lt_succ hj)
          exact ⟨e, by rw [← he]; congr 1; omega⟩)
        (by rw [← hresp]; congr 1; omega)
        (Nat.lt_of_succ_lt_succ hlt)
      simp only [fetchJsonRetryAux, he0, hrec, sleepList]

/-- If every attempt fails at the transport level, the loop makes all its
attempts, sleeps after each of them, and throws the last error. -/
theorem fetchJsonRetryAux_allerr (f : Nat → FetchOutcome) (parse : Parse) (e : Nat → Nat) :
    ∀ (rem i : Nat) (le : Option Nat),
      (∀ j, j < rem → f (i + j) = .transportError (e (i + j))) →
      fetchJsonRetryAux f parse i rem le =
        (.error (if rem = 0 then le else some (e (i + rem - 1))),
         ⟨rem, sleepList i rem⟩) := by
  intro rem
  induction rem with
  | zero => intro i le h; simp [fetchJsonRetryAux, sleepList]
  | succ n ih =>
    intro i le h
    have h0 : f i = .transportError (e i) := by
      have := h 0 (Nat.succ_pos n)
      rwa [Nat.add_zero] at this
    have hrec := ih (i + 1) (some (e i))
      (fun j hj => by
        have hj1 := h (j + 1) (Nat.succ_lt_succ hj)
        have heq : i + (j + 1) = i + 1 + j := by omega
        rwa [heq] at hj1)
    have hif : (if n = 0 then some (e i) else some (e (i + 1 + n - 1)))
        = some (e (i + (n + 1) - 1)) := by
      cases n with
      | zero => simp
      | succ m =>
        have harg : i + 1 + (m + 1) - 1 = i + (m + 1 + 1) - 1 := by omega
        simp only [Nat.succ_ne_zero, if_false, harg]
    simp only [fetchJsonRetryAux, h0, hrec, sleepList, hif, Nat.succ_ne_zero, if_false]

/-! ## Lemmas about the fallback loop -/

theorem fallbackLoop_nil (net : Net) (parse : Parse) (t k : String)
    (last : Option (String × FetchResult)) :
    fallbackLoop net parse t k [] last = ⟨.ok last, []⟩ := rfl

theorem fallbackLoop_cons_ok (net : Net) (parse : Parse) (t k p : String)
    (rest : List String) (last : Option (String × FetchResult)) (r : FetchResult)
    (hc : (callProvider net parse t k p).1 = .ok r) (hok : r.ok = true) :
    fallbackLoop net parse t k (p :: rest) last = ⟨.ok (some (p, r)), [p]⟩ := by
  simp [fallbackLoop, hc, hok]

theorem fallbackLoop_cons_auth (net : Net) (parse : Parse) (t k p : String)
    (rest : List String) (last : Option (String × FetchResult)) (r : FetchResult)
    (hc : (callProvider net parse t k p).1 = .ok r) (hok : r.ok = false)
    (hauth : r.status = 401 ∨ r.status = 403) :
    fallbackLoop net parse t k (p :: rest) last = ⟨.ok (some (p, r)), [p]⟩ := by
  rcases hauth with h | h <;> simp [fallbackLoop, hc, hok, h]

theorem fallbackLoop_cons_next (net : Net) (parse : Parse) (t k p : String)
    (rest : List String) (last : Option (String × FetchResult)) (r : FetchResult)
    (hc : (callProvider net parse t k p).1 = .ok r) (hok : r.ok = false)
    (h1 : r.status ≠ 401) (h2 : r.status ≠ 403) :
    fallbackLoop net parse t k (p :: rest) last =
      ⟨(fallbackLoop net parse t k rest (some (p, r))).result,
       p :: (fallbackLoop net parse t k rest (some (p, r))).attempted⟩ := by
  simp [fallbackLoop, hc, hok, h1, h2]

theorem fallbackLoop_cons_throw (net : Net) (parse : Parse) (t k p : String)
    (rest : List String) (last : Option (String × FetchResult)) (e : JsErr)
    (hc : (callProvider net parse t k p).1 = .error e) :
    fallbackLoop net parse t k (p :: rest) last = ⟨.error e, [p]⟩ := by
  simp [fallbackLoop, hc]

/-- With an inherited prototype name as the preferred provider, the
resolver throws the `TypeError` on its first candidate, before any
retry-fetch call is made. -/
theorem fetchStatusWithFallback_protoInherited (net : Net) (parse : Parse)
    (taskId apiKey s : String) (hs : PROVIDERS s = .protoInherited) :
    fetchStatusWithFallback net parse taskId apiKey (some s) =
      ⟨.error .typeError, [s]⟩ := by
  unfold fetchStatusWithFallback
  rw [tryOrder_protoInherited s hs]
  exact fallbackLoop_cons_throw net parse taskId apiKey s _ none .typeError
    (by rw [callProvider, hs])

/-! ## C3 and C4: the retry client -/

/-- C3: whenever an attempt of the retry client receives an HTTP response
of any status code (after transport failures only), no further attempt is
made: the client returns immediately with {ok, status, data}, where ok is
true exactly when the status is in 200..299, and exactly one outbound call
was made for that received response. -/
theorem claim_C3 (f : Nat → FetchOutcome) (parse : Parse) (retries i st : Nat)
    (tx : String) (hlt : i < retries)
    (hpre : ∀ j, j < i → ∃ e, f j = .transportError e)
    (hresp : f i = .response st tx) :
    fetchJsonRetry f parse retries =
      (.ok ⟨decide (200 ≤ st ∧ st ≤ 299), st, parseBody parse tx⟩,
       ⟨i + 1, sleepList 0 i⟩)
    ∧ (decide (200 ≤ st ∧ st ≤ 299) = true ↔ (200 ≤ st ∧ st ≤ 299)) := by
  constructor
  · unfold fetchJsonRetry
    exact fetchJsonRetryAux_response f parse i 0 retries none st tx
      (fun j hj => by simpa using hpre j hj) (by simpa using hresp) hlt
  · simp

/-- C3 witness: a 500 on the first attempt returns immediately with
ok = false after a single call and no sleeps. -/
theorem claim_C3_witness :
    0 < 3 ∧ fetchJsonRetry fC3 parseNone 3 =
      (.ok ⟨decide (200 ≤ 500 ∧ 500 ≤ 299), 500, parseBody parseNone "boom"⟩,
       ⟨0 + 1, sleepList 0 0⟩) :=
  ⟨by decide, (claim_C3 fC3 parseNone 3 0 500 "boom" (by decide)
      (fun j hj => absurd hj (Nat.not_lt_zero j)) rfl).1⟩

/-- C4 counterexample: with three sustained transport failures the source
also sleeps 3100 ms after the third (last) attempt before throwing, so the
sleep list is [900, 2000, 3100] — not [900, 2000] as the claim's "not
after the last attempt" requires. -/
theorem claim_C4_counterexample :
    (fetchJsonRetry fC4 parseNone 3).2 = ⟨3, [900, 2000, 3100]⟩
    ∧ (fetchJsonRetry fC4 parseNone 3).2.sleeps ≠ [900, 2000] :=
  ⟨rfl, by decide⟩

/-- C4 (amended): on sustained transport failure the retry client makes
exactly `retries` attempts (default 3), waits 900 + attemptIndex * 1100 ms
after every failed attempt — including after the last one, before the
error propagates — and then propagates the last transport error to the
caller. -/
theorem claim_C4 (f : Nat → FetchOutcome) (parse : Parse) (retries : Nat)
    (e : Nat → Nat) (h : ∀ i, i < retries → f i = .transportError (e i)) :
    fetchJsonRetry f parse retries =
      (.error (if retries = 0 then none else some (e (retries - 1))),
       ⟨retries, sleepList 0 retries⟩)
    ∧ sleepList 0 retries = (List.range retries).map (fun j => 900 + j * 1100) := by
  constructor
  · unfold fetchJsonRetry
    have hall := fetchJsonRetryAux_allerr f parse e retries 0 none
      (fun j hj => by simpa using h j hj)
    simpa using hall
  · simp [sleepList_eq]

/-- C4 witness: three transport failures give exactly 3 calls, sleeps
after each including the last, and the last error propagates. -/
theorem claim_C4_witness :
    (∀ i, i < 3 → fC4 i = .transportError i)
    ∧ fetchJsonRetry fC4 parseNone 3 =
        (.error (if (3 : Nat) = 0 then none else some 2), ⟨3, sleepList 0 3⟩) :=
  ⟨fun i _ => rfl, (claim_C4 fC4 parseNone 3 (fun i => i) (fun i _ => rfl)).1⟩

/-! ## C5: the status normalizer -/

/-- C5: `normalizeStatus` returns only "processing", "done" or "error";
case-insensitively COMPLETED maps to "done", FAILED to "error", and every
other value — CREATED, IN_PROGRESS, unknown strings, null and undefined —
maps to "processing". -/
theorem claim_C5 :
    (∀ s : String, normalizeStatus (some (.str s)) =
        if jsToUpper s = "COMPLETED" then "done"
        else if jsToUpper s = "FAILED" then "error"
        else "processing")
    ∧ normalizeStatus none = "processing"
    ∧ normalizeStatus (some .null) = "processing"
    ∧ normalizeStatus (some (.str "CREATED")) = "processing"
    ∧ normalizeStatus (some (.str "IN_PROGRESS")) = "processing"
    ∧ ∀ x : Option JVal,
        normalizeStatus x = "processing" ∨ normalizeStatus x = "done" ∨
          normalizeStatus x = "error" := by
  refine ⟨?_, rfl, rfl, rfl, rfl, ?_⟩
  · intro s
    by_cases hs : s = ""
    · subst hs; rfl
    · simp only [normalizeStatus, jsFalsyOpt, jsFalsy, jsToStringOpt, jsToString,
        beq_iff_eq, hs, if_false]
      split_ifs <;> rfl
  · intro x
    simp only [normalizeStatus]
    split_ifs <;> simp

/-! ## C6: provider resolution -/

/-- C6 counterexample: "toString" is not a known provider identity (and
trimming leaves it unchanged), yet `pickProvider` returns it unchanged
instead of the default, because the bracket lookup `PROVIDERS["toString"]`
is truthy via `Object.prototype`. -/
theorem claim_C6_counterexample :
    jsTrim "toString" = "toString"
    ∧ ("toString" : String) ≠ "kling-2.5-pro"
    ∧ ("toString" : String) ≠ "kling-2.1-pro"
    ∧ pickProvider (some "toString") = "toString" :=
  ⟨rfl, by decide, by decide, rfl⟩

/-- C6 (amended): provider resolution is total and never fails: it returns
the trimmed input exactly when the bracket lookup `PROVIDERS[trimmed]` is
truthy — the two provider identities, and also the names inherited from
`Object.prototype` such as "toString" — and the default `kling-2.5-pro`
otherwise (in particular for "", "bogus" and null). -/
theorem claim_C6 (p : Option String) :
    (lookupTruthy (PROVIDERS (jsTrim (p.getD ""))) = true →
        pickProvider p = jsTrim (p.getD ""))
    ∧ (lookupTruthy (PROVIDERS (jsTrim (p.getD ""))) = false →
        pickProvider p = "kling-2.5-pro")
    ∧ pickProvider none = "kling-2.5-pro"
    ∧ pickProvider (some "") = "kling-2.5-pro"
    ∧ pickProvider (some "bogus") = "kling-2.5-pro"
    ∧ pickProvider (some "kling-2.1-pro") = "kling-2.1-pro"
    ∧ pickProvider (some "toString") = "toString" := by
  refine ⟨?_, ?_, rfl, rfl, by decide, by decide, by decide⟩
  · intro h; simp [pickProvider, h]
  · intro h; simp [pickProvider, h]

/-- C6 witness: a concrete unknown (and non-inherited) input resolves to
the default. -/
theorem claim_C6_witness :
    lookupTruthy (PROVIDERS (jsTrim ((some "bogus" : Option String).getD ""))) = false
    ∧ pickProvider (some "bogus") = "kling-2.5-pro" :=
  ⟨rfl, (claim_C6 (some "bogus")).2.1 rfl⟩

/-! ## Lemmas about the job map store -/

theorem getJob_map_upd (k : String) (v : JobRec) (tid : String) (hne : k ≠ tid) :
    ∀ jobs : Jobs,
      getJob (jobs.map (fun kv => if kv.1 == k then (k, v) else kv)) tid
        = getJob jobs tid := by
  intro jobs
  induction jobs with
  | nil => rfl
  | cons x xs ih =>
    rw [List.map_cons]
    by_cases hxk : (x.1 == k) = true
    · have hx1 : x.1 = k := by simpa using hxk
      have hkt : (k == tid) = false := by simpa using hne
      have hxt : (x.1 == tid) = false := by rw [hx1]; exact hkt
      simp [getJob, hxk, hkt, hxt]
      simpa using ih
    · have hxkf : (x.1 == k) = false := by revert hxk; cases (x.1 == k) <;> simp
      by_cases hxt : (x.1 == tid) = true
      · simp [getJob, hxkf, hxt]
      · have hxtf : (x.1 == tid) = false := by revert hxt; cases (x.1 == tid) <;> simp
        simp [getJob, hxkf, hxtf]
        simpa using ih

theorem getJob_append_single (k : String) (v : JobRec) (tid : String) (hne : k ≠ tid) :
    ∀ jobs : Jobs, getJob (jobs ++ [(k, v)]) tid = getJob jobs tid := by
  intro jobs
  induction jobs with
  | nil =>
    have hkt : (k == tid) = false := by simpa using hne
    simp [getJob, hkt]
  | cons x xs ih =>
    rw [List.cons_append]
    by_cases hxt : (x.1 == tid) = true
    · simp [getJob, hxt]
    · have hxtf : (x.1 == tid) = false := by revert hxt; cases (x.1 == tid) <;> simp
      simp [getJob, hxtf]
      simpa using ih

/-- Writes to another key never disturb an existing record. -/
theorem getJob_setJob_ne (jobs : Jobs) (k : String) (v : JobRec) (tid : String)
    (hne : k ≠ tid) : getJob (setJob jobs k v) tid = getJob jobs tid := by
  unfold setJob
  split_ifs with hany
  · exact getJob_map_upd k v tid hne jobs
  · exact getJob_append_single k v tid hne jobs

/-- The status handler either leaves the job map untouched or backfills the
looked-up task: a write happens only when no record existed and the
resolved response was an HTTP success. -/
theorem statusHandler_write (net : Net) (parse : Parse) (now : Nat) (jobs : Jobs)
    (a tid : String) :
    (statusHandler net parse now jobs a tid).2 = jobs
    ∨ (getJob jobs tid = none ∧ ∃ k p r,
        getApiKeyFromReq a = some k
        ∧ (fetchStatusWithFallback net parse tid k (preferredOf jobs tid)).result
            = .ok (some (p, r))
        ∧ r.ok = true
        ∧ (statusHandler net parse now jobs a tid).2 = saveJob jobs tid p now) := by
  cases hk : getApiKeyFromReq a with
  | none => left; simp [statusHandler, hk]
  | some k =>
    cases hres : (fetchStatusWithFallback net parse tid k (preferredOf jobs tid)).result with
    | error e => left; simp [statusHandler, hk, hres]
    | ok o =>
      cases o with
      | none => left; simp [statusHandler, hk, hres]
      | some pr =>
        obtain ⟨p, r⟩ := pr
        by_cases hok : r.ok = false
        · left; simp [statusHandler, hk, hres, hok]
        · have hok' : r.ok = true := by revert hok; cases r.ok <;> simp
          cases hmeta : getJob jobs tid with
          | some m => left; simp [statusHandler, hk, hres, hok', hmeta]
          | none =>
            right
            exact ⟨rfl, k, p, r, rfl, hres,
              hok', by simp [statusHandler, hk, hres, hok', hmeta]⟩

/-- The result handler either leaves the job map untouched or backfills:
a write happens only when no record existed, the response was an HTTP
success, and a non-falsy generated URL was extracted. -/
theorem resultHandler_write (net : Net) (parse : Parse) (now : Nat) (jobs : Jobs)
    (a tid : String) :
    (resultHandler net parse now jobs a tid).2 = jobs
    ∨ (getJob jobs tid = none ∧ ∃ k p r u,
        getApiKeyFromReq a = some k
        ∧ (fetchStatusWithFallback net parse tid k (preferredOf jobs tid)).result
            = .ok (some (p, r))
        ∧ r.ok = true
        ∧ extractGeneratedUrl r.data = some u
        ∧ jsFalsy u = false
        ∧ (resultHandler net parse now jobs a tid).2 = saveJob jobs tid p now) := by
  cases hk : getApiKeyFromReq a with
  | none => left; simp [resultHandler, hk]
  | some k =>
    cases hres : (fetchStatusWithFallback net parse tid k (preferredOf jobs tid)).result with
    | error e => left; simp [resultHandler, hk, hres]
    | ok o =>
      cases o with
      | none => left; simp [resultHandler, hk, hres]
      | some pr =>
        obtain ⟨p, r⟩ := pr
        by_cases hok : r.ok = false
        · left; simp [resultHandler, hk, hres, hok]
        · have hok' : r.ok = true := by revert hok; cases r.ok <;> simp
          by_cases hcomp :
              jsToUpper (jsToStringOpt (jget2 r.data "data" "status")) ≠ "COMPLETED"
          · left; simp [resultHandler, hk, hres, hok', hcomp]
          · cases hx : extractGeneratedUrl r.data with
            | none => left; simp [resultHandler, hk, hres, hok', hcomp, hx]
            | some u =>
              by_cases hf : jsFalsy u = true
              · left; simp [resultHandler, hk, hres, hok', hcomp, hx, hf]
              · have hf' : jsFalsy u = false := by revert hf; cases jsFalsy u <;> simp
                cases hmeta : getJob jobs tid with
                | some m =>
                  left; simp [resultHandler, hk, hres, hok', hcomp, hx, hf', hmeta]
                | none =>
                  right
                  exact ⟨rfl, k, p, r, u, rfl, hres, hok', hx, hf',
                    by simp [resultHandler, hk, hres, hok', hcomp, hx, hf', hmeta]⟩

/-- The create handler either leaves the job map untouched or writes the
record for the upstream-assigned task id with the provider it used. -/
theorem generateHandler_write (net : Net) (parse : Parse) (now : Nat) (jobs : Jobs)
    (a : String) (b : GenBody) (img : Option String) :
    (generateHandler net parse now jobs a b img).2 = jobs
    ∨ ∃ tidv provider,
        (generateHandler net parse now jobs a b img).1 = .ok tidv provider
        ∧ (generateHandler net parse now jobs a b img).2
            = saveJob jobs (jsToString tidv) provider now := by
  cases hk : getApiKeyFromReq a with
  | none => left; simp [generateHandler, hk]
  | some k =>
    cases himg : img with
    | none => left; simp [generateHandler, hk, himg]
    | some image =>
      cases hcfg : PROVIDERS (pickProvider b.provider) with
      | protoInherited => left; simp [generateHandler, hk, himg, hcfg]
      | undefinedProp => left; simp [generateHandler, hk, himg, hcfg]
      | cfg cfg =>
        cases hcall : (fetchJsonRetry
            (net ⟨cfg.createUrl, "POST", k, some (buildPayload (pickProvider b.provider) b image)⟩)
            parse 3).1 with
        | error e => left; simp [generateHandler, hk, himg, hcfg, hcall]
        | ok r =>
          by_cases hok : r.ok = false
          · left; simp [generateHandler, hk, himg, hcfg, hcall, hok]
          · have hok' : r.ok = true := by revert hok; cases r.ok <;> simp
            cases htid : jget2 r.data "data" "task_id" with
            | none => left; simp [generateHandler, hk, himg, hcfg, hcall, hok', htid]
            | some tidv =>
              by_cases hfal : jsFalsy tidv = true
              · left; simp [generateHandler, hk, himg, hcfg, hcall, hok', htid, hfal]
              · have hfal' : jsFalsy tidv = false := by
                  revert hfal; cases jsFalsy tidv <;> simp
                right
                exact ⟨tidv, pickProvider b.provider,
                  by simp [generateHandler, hk, himg, hcfg, hcall, hok', htid, hfal'],
                  by simp [generateHandler, hk, himg, hcfg, hcall, hok', htid, hfal']⟩

/-! ## C1 and C2: the fallback status resolver -/

/-- C1 counterexample: with preferred provider "toString" the candidate
list is not one of the two canonical two-element lists — the inherited
prototype name is pushed first — and the resolver throws a TypeError on
that first candidate without making a single retry-fetch call, even though
the network (netOk) answers 200 everywhere, so it does not return the
first candidate with an HTTP success. -/
theorem claim_C1_counterexample :
    tryOrder (some "toString") = ["toString", "kling-2.5-pro", "kling-2.1-pro"]
    ∧ tryOrder (some "toString") ≠ ["kling-2.5-pro", "kling-2.1-pro"]
    ∧ tryOrder (some "toString") ≠ ["kling-2.1-pro", "kling-2.5-pro"]
    ∧ fetchStatusWithFallback netOk parseNone "t" "k" (some "toString") =
        ⟨.error .typeError, ["toString"]⟩
    ∧ (callProvider netOk parseNone "t" "k" "toString").2 = ⟨0, []⟩ :=
  ⟨rfl, by decide, by decide, rfl, rfl⟩

/-- C1 (amended): when the preferred provider is not a name inherited from
`Object.prototype`, the candidate list is ordered and deduplicated — the
preferred provider first when known, then the remaining known providers in
the canonical order; whenever the candidate list is the two-element one,
the retry client is called once per candidate in order, the loop returns
immediately with the first candidate whose response is an HTTP success,
and when every candidate failed (without auth errors) it returns the last
candidate's failed result.  For an inherited prototype name as preferred
provider, the source instead pushes it first and throws a TypeError there,
before any retry-fetch call. -/
theorem claim_C1 (net : Net) (parse : Parse) (taskId apiKey : String)
    (pref : Option String) :
    ((∀ s, pref = some s → PROVIDERS s ≠ .protoInherited) →
      tryOrder pref =
        if pref = some "kling-2.1-pro" then ["kling-2.1-pro", "kling-2.5-pro"]
        else ["kling-2.5-pro", "kling-2.1-pro"])
    ∧ (∀ s, PROVIDERS s = .protoInherited →
        fetchStatusWithFallback net parse taskId apiKey (some s) =
          ⟨.error .typeError, [s]⟩)
    ∧ (∀ p1 p2, tryOrder pref = [p1, p2] →
        (∀ r1, (callProvider net parse taskId apiKey p1).1 = .ok r1 → r1.ok = true →
          fetchStatusWithFallback net parse taskId apiKey pref =
            ⟨.ok (some (p1, r1)), [p1]⟩)
        ∧ (∀ r1 r2, (callProvider net parse taskId apiKey p1).1 = .ok r1 →
            r1.ok = false → r1.status ≠ 401 → r1.status ≠ 403 →
            (callProvider net parse taskId apiKey p2).1 = .ok r2 → r2.ok = true →
            fetchStatusWithFallback net parse taskId apiKey pref =
              ⟨.ok (some (p2, r2)), [p1, p2]⟩)
        ∧ (∀ r1 r2, (callProvider net parse taskId apiKey p1).1 = .ok r1 →
            r1.ok = false → r1.status ≠ 401 → r1.status ≠ 403 →
            (callProvider net parse taskId apiKey p2).1 = .ok r2 → r2.ok = false →
            fetchStatusWithFallback net parse taskId apiKey pref =
              ⟨.ok (some (p2, r2)), [p1, p2]⟩)) := by
  refine ⟨tryOrder_eq pref,
    fun s hs => fetchStatusWithFallback_protoInherited net parse taskId apiKey s hs, ?_⟩
  intro p1 p2 hord
  refine ⟨?_, ?_, ?_⟩
  · intro r1 h1 hok
    unfold fetchStatusWithFallback
    rw [hord, fallbackLoop_cons_ok net parse taskId apiKey p1 [p2] none r1 h1 hok]
  · intro r1 r2 h1 hok1 ha1 ha2 h2 hok2
    unfold fetchStatusWithFallback
    rw [hord, fallbackLoop_cons_next net parse taskId apiKey p1 [p2] none r1 h1 hok1 ha1 ha2,
      fallbackLoop_cons_ok net parse taskId apiKey p2 [] (some (p1, r1)) r2 h2 hok2]
  · intro r1 r2 h1 hok1 ha1 ha2 h2 hok2
    unfold fetchStatusWithFallback
    rw [hord, fallbackLoop_cons_next net parse taskId apiKey p1 [p2] none r1 h1 hok1 ha1 ha2]
    by_cases hauth : r2.status = 401 ∨ r2.status = 403
    · rw [fallbackLoop_cons_auth net parse taskId apiKey p2 [] (some (p1, r1)) r2 h2 hok2 hauth]
    · push_neg at hauth
      rw [fallbackLoop_cons_next net parse taskId apiKey p2 [] (some (p1, r1)) r2 h2 hok2
            hauth.1 hauth.2,
          fallbackLoop_nil]

/-- C1 witness: with no preferred provider the candidate list is the
canonical one; first candidate 404, second 200 — the resolver returns the
second candidate after attempting exactly the two candidates in order. -/
theorem claim_C1_witness :
    tryOrder (none : Option String) = ["kling-2.5-pro", "kling-2.1-pro"]
    ∧ (callProvider netC1 parseNone "t" "k" "kling-2.5-pro").1 =
        .ok ⟨decide (200 ≤ 404 ∧ 404 ≤ 299), 404, parseBody parseNone ""⟩
    ∧ fetchStatusWithFallback netC1 parseNone "t" "k" none =
        ⟨.ok (some ("kling-2.1-pro",
            ⟨decide (200 ≤ 200 ∧ 200 ≤ 299), 200, parseBody parseNone ""⟩)),
         ["kling-2.5-pro", "kling-2.1-pro"]⟩ :=
  ⟨(claim_C1 netC1 parseNone "t" "k" none).1 (fun s hs => Option.noConfusion hs),
   rfl,
    ((claim_C1 netC1 parseNone "t" "k" none).2.2 "kling-2.5-pro" "kling-2.1-pro" rfl).2.1
      ⟨decide (200 ≤ 404 ∧ 404 ≤ 299), 404, parseBody parseNone ""⟩
      ⟨decide (200 ≤ 200 ∧ 200 ≤ 299), 200, parseBody parseNone ""⟩
      rfl (by decide) (by decide) (by decide) rfl (by decide)⟩

/-- C2: if a candidate's status call returns 401 or 403, the fallback stops
immediately — no later candidate is called — and returns that candidate's
failed result. -/
theorem claim_C2 (net : Net) (parse : Parse) (taskId apiKey : String)
    (pref : Option String) :
    ∀ p1 p2, tryOrder pref = [p1, p2] →
      (∀ r1, (callProvider net parse taskId apiKey p1).1 = .ok r1 →
        (r1.status = 401 ∨ r1.status = 403) →
        fetchStatusWithFallback net parse taskId apiKey pref =
          ⟨.ok (some (p1, r1)), [p1]⟩)
      ∧ (∀ r1 r2, (callProvider net parse taskId apiKey p1).1 = .ok r1 →
          r1.ok = false → r1.status ≠ 401 → r1.status ≠ 403 →
          (callProvider net parse taskId apiKey p2).1 = .ok r2 →
          (r2.status = 401 ∨ r2.status = 403) →
          fetchStatusWithFallback net parse taskId apiKey pref =
            ⟨.ok (some (p2, r2)), [p1, p2]⟩) := by
  intro p1 p2 hord
  constructor
  · intro r1 h1 hauth
    have hok1 : r1.ok = false := by
      rw [callProvider_ok_field net parse taskId apiKey p1 r1 h1]
      rcases hauth with h | h <;> rw [h] <;> decide
    unfold fetchStatusWithFallback
    rw [hord, fallbackLoop_cons_auth net parse taskId apiKey p1 [p2] none r1 h1 hok1 hauth]
  · intro r1 r2 h1 hok1 ha1 ha2 h2 hauth
    have hok2 : r2.ok = false := by
      rw [callProvider_ok_field net parse taskId apiKey p2 r2 h2]
      rcases hauth with h | h <;> rw [h] <;> decide
    unfold fetchStatusWithFallback
    rw [hord, fallbackLoop_cons_next net parse taskId apiKey p1 [p2] none r1 h1 hok1 ha1 ha2,
      fallbackLoop_cons_auth net parse taskId apiKey p2 [] (some (p1, r1)) r2 h2 hok2 hauth]

/-! ## C9: the resolver result is never null when calls return -/

/-- C9 counterexample: the network answers 200 on both status endpoints
(one fetch call each, no throw), yet with preferred provider "toString"
the resolver throws a TypeError instead of returning a non-null
(provider, response) pair — and its candidate call makes zero fetch calls,
so no retry-fetch call threw. -/
theorem claim_C9_counterexample :
    fetchJsonRetry
        (netOk ⟨FREEPIK_BASE ++ "/v1/ai/image-to-video/kling-v2-5-pro/t", "GET", "k", none⟩)
        parseNone 3
      = (.ok ⟨decide (200 ≤ 200 ∧ 200 ≤ 299), 200, parseBody parseNone ""⟩, ⟨1, []⟩)
    ∧ fetchJsonRetry
        (netOk ⟨FREEPIK_BASE ++ "/v1/ai/image-to-video/kling-v2-1/t", "GET", "k", none⟩)
        parseNone 3
      = (.ok ⟨decide (200 ≤ 200 ∧ 200 ≤ 299), 200, parseBody parseNone ""⟩, ⟨1, []⟩)
    ∧ (fetchStatusWithFallback netOk parseNone "t" "k" (some "toString")).result
        = .error .typeError
    ∧ (callProvider netOk parseNone "t" "k" "toString").2.calls = 0 :=
  ⟨rfl, rfl, rfl, rfl⟩

/-- C9 (amended): for every preferred provider the candidate list contains
both known providers.  Whenever every retry-fetch call returns a response
rather than throwing, the fallback resolver returns a non-null
(provider, response) pair provided the preferred provider is not a name
inherited from `Object.prototype` — for an inherited name it throws a
TypeError before any retry-fetch call instead.  Either way the 500
branches of the status and result handlers guarded by the null check on
the resolver output stay unreachable: a thrown error surfaces through the
catch-all 500, never through the null check. -/
theorem claim_C9 (net : Net) (parse : Parse) :
    (∀ pref : Option String,
        "kling-2.5-pro" ∈ tryOrder pref ∧ "kling-2.1-pro" ∈ tryOrder pref)
    ∧ ((∀ req : Req, ∃ r tr, fetchJsonRetry (net req) parse 3 = (.ok r, tr)) →
        (∀ taskId apiKey : String, ∀ pref : Option String,
            (∀ s, pref = some s → PROVIDERS s ≠ .protoInherited) →
            ∃ p r, (fetchStatusWithFallback net parse taskId apiKey pref).result =
              .ok (some (p, r)))
        ∧ (∀ now jobs a tid,
            (statusHandler net parse now jobs a tid).1 ≠ .fetchFailed)
        ∧ (∀ now jobs a tid,
            (resultHandler net parse now jobs a tid).1 ≠ .fetchFailed)) := by
  constructor
  · intro pref
    match pref with
    | none => rw [tryOrder_eq none (fun s hs => Option.noConfusion hs)]; simp
    | some p =>
      cases hp : PROVIDERS p with
      | protoInherited => rw [tryOrder_protoInherited p hp]; simp
      | cfg c =>
        rw [tryOrder_eq (some p) (fun s hs => by
          cases hs; rw [hp]; exact fun hx => JsLookup.noConfusion hx)]
        split <;> simp
      | undefinedProp =>
        rw [tryOrder_eq (some p) (fun s hs => by
          cases hs; rw [hp]; exact fun hx => JsLookup.noConfusion hx)]
        split <;> simp
  · intro hnet
    have hcall : ∀ t k p c, PROVIDERS p = .cfg c →
        ∃ r, (callProvider net parse t k p).1 = .ok r := by
      intro t k p c hp
      obtain ⟨r, tr, hr⟩ := hnet ⟨c.statusUrl t, "GET", k, none⟩
      refine ⟨r, ?_⟩
      rw [callProvider, hp]
      show ((fetchJsonRetry (net ⟨c.statusUrl t, "GET", k, none⟩) parse 3).1).mapError
        JsErr.thrown = .ok r
      rw [hr]
      rfl
    have htwo : ∀ t k p1 p2 c1 c2, PROVIDERS p1 = .cfg c1 → PROVIDERS p2 = .cfg c2 →
        ∃ p r, (fallbackLoop net parse t k [p1, p2] none).result = .ok (some (p, r)) := by
      intro t k p1 p2 c1 c2 hp1 hp2
      obtain ⟨r1, h1⟩ := hcall t k p1 c1 hp1
      by_cases hok1 : r1.ok = true
      · exact ⟨p1, r1, by
          rw [fallbackLoop_cons_ok net parse t k p1 [p2] none r1 h1 hok1]⟩
      · have hok1f : r1.ok = false := by revert hok1; cases r1.ok <;> simp
        by_cases hauth1 : r1.status = 401 ∨ r1.status = 403
        · exact ⟨p1, r1, by
            rw [fallbackLoop_cons_auth net parse t k p1 [p2] none r1 h1 hok1f hauth1]⟩
        · push_neg at hauth1
          obtain ⟨r2, h2⟩ := hcall t k p2 c2 hp2
          by_cases hok2 : r2.ok = true
          · exact ⟨p2, r2, by
              rw [fallbackLoop_cons_next net parse t k p1 [p2] none r1 h1 hok1f
                    hauth1.1 hauth1.2,
                  fallbackLoop_cons_ok net parse t k p2 [] (some (p1, r1)) r2 h2 hok2]⟩
          · have hok2f : r2.ok = false := by revert hok2; cases r2.ok <;> simp
            by_cases hauth2 : r2.status = 401 ∨ r2.status = 403
            · exact ⟨p2, r2, by
                rw [fallbackLoop_cons_next net parse t k p1 [p2] none r1 h1 hok1f
                      hauth1.1 hauth1.2,
                    fallbackLoop_cons_auth net parse t k p2 [] (some (p1, r1)) r2 h2
                      hok2f hauth2]⟩
            · push_neg at hauth2
              exact ⟨p2, r2, by
                rw [fallbackLoop_cons_next net parse t k p1 [p2] none r1 h1 hok1f
                      hauth1.1 hauth1.2,
                    fallbackLoop_cons_next net parse t k p2 [] (some (p1, r1)) r2 h2
                      hok2f hauth2.1 hauth2.2,
                    fallbackLoop_nil]⟩
    have hfirst : ∀ taskId apiKey : String, ∀ pref : Option String,
        (∀ s, pref = some s → PROVIDERS s ≠ .protoInherited) →
        ∃ p r, (fetchStatusWithFallback net parse taskId apiKey pref).result =
          .ok (some (p, r)) := by
      intro t k pref hpref
      unfold fetchStatusWithFallback
      rw [tryOrder_eq pref hpref]
      split
      · exact htwo t k "kling-2.1-pro" "kling-2.5-pro" _ _ rfl rfl
      · exact htwo t k "kling-2.5-pro" "kling-2.1-pro" _ _ rfl rfl
    have hnever : ∀ taskId apiKey : String, ∀ pref : Option String,
        (∃ p r, (fetchStatusWithFallback net parse taskId apiKey pref).result =
          .ok (some (p, r)))
        ∨ (fetchStatusWithFallback net parse taskId apiKey pref).result =
            .error .typeError := by
      intro t k pref
      match pref with
      | none => exact Or.inl (hfirst t k none (fun s hs => Option.noConfusion hs))
      | some s =>
        cases hp : PROVIDERS s with
        | cfg c =>
          exact Or.inl (hfirst t k (some s) (fun s2 hs2 => by
            cases hs2; rw [hp]; exact fun hx => JsLookup.noConfusion hx))
        | protoInherited =>
          right
          rw [fetchStatusWithFallback_protoInherited net parse t k s hp]
        | undefinedProp =>
          exact Or.inl (hfirst t k (some s) (fun s2 hs2 => by
            cases hs2; rw [hp]; exact fun hx => JsLookup.noConfusion hx))
    refine ⟨hfirst, ?_, ?_⟩
    · intro now jobs a tid
      cases hk : getApiKeyFromReq a with
      | none => simp [statusHandler, hk]
      | some key =>
        rcases hnever tid key (preferredOf jobs tid) with ⟨p, r, hres⟩ | hres
        · simp only [statusHandler, hk, hres]
          by_cases hok : r.ok = false <;> simp [hok]
        · simp [statusHandler, hk, hres]
    · intro now jobs a tid
      cases hk : getApiKeyFromReq a with
      | none => simp [resultHandler, hk]
      | some key =>
        rcases hnever tid key (preferredOf jobs tid) with ⟨p, r, hres⟩ | hres
        · simp only [resultHandler, hk, hres]
          by_cases hok : r.ok = false
          · simp [hok]
          · rw [if_neg hok]
            by_cases hcomp :
                jsToUpper (jsToStringOpt (jget2 r.data "data" "status")) ≠ "COMPLETED"
            · simp [hcomp]
            · rw [if_neg hcomp]
              cases hx : extractGeneratedUrl r.data with
              | none => simp [hx]
              | some u =>
                simp only [hx]
                split_ifs <;> simp
        · simp [resultHandler, hk, hres]

/-- C9 witness: with a network that always answers 200 and a preferred
provider that is not an inherited name (none), the resolver output is
non-null and the status handler does not hit the null-check 500. -/
theorem claim_C9_witness :
    (∀ req : Req, ∃ r tr, fetchJsonRetry (netOk req) parseNone 3 = (.ok r, tr))
    ∧ (∃ p r, (fetchStatusWithFallback netOk parseNone "t" "k" none).result =
        .ok (some (p, r)))
    ∧ (statusHandler netOk parseNone 0 [] "Bearer k" "t").1 ≠ .fetchFailed := by
  have hnet : ∀ req : Req, ∃ r tr, fetchJsonRetry (netOk req) parseNone 3 = (.ok r, tr) :=
    fun req => ⟨⟨decide (200 ≤ 200 ∧ 200 ≤ 299), 200, parseBody parseNone ""⟩, ⟨1, []⟩, rfl⟩
  exact ⟨hnet,
    ((claim_C9 netOk parseNone).2 hnet).1 "t" "k" none (fun s hs => Option.noConfusion hs),
    ((claim_C9 netOk parseNone).2 hnet).2.1 0 [] "Bearer k" "t"⟩

/-! ## C7: the result handler -/

/-- C7 counterexample: with status COMPLETED and a nonempty generated array
whose first element is the empty string, the handler does not return that
first element as videoUrl — the falsy check `if (!url)` sends it to the
400 "URL empty" branch instead. -/
theorem claim_C7_counterexample :
    jget2 dEmptyFirst "data" "status" = some (.str "COMPLETED")
    ∧ extractGeneratedUrl dEmptyFirst = some (.str "")
    ∧ (resultHandler netB parseEmptyFirst 0 [] "Bearer k" "t").1 =
        .emptyUrl "kling-2.5-pro" dEmptyFirst
    ∧ (resultHandler netB parseEmptyFirst 0 [] "Bearer k" "t").1 ≠
        .ok (.str "") "kling-2.5-pro" :=
  ⟨rfl, rfl, rfl, fun hcontra =>
    ResultResp.noConfusion
      (show ResultResp.emptyUrl "kling-2.5-pro" dEmptyFirst
          = ResultResp.ok (JVal.str "") "kling-2.5-pro" from hcontra)⟩

/-- C7 (amended): once the result handler has a successful resolution, a
raw status other than COMPLETED (case-insensitively) yields the 400
"not finished" response carrying the raw status and no URL is extracted;
with status COMPLETED the handler returns the first element of
data.generated as videoUrl provided that element is truthy, and answers
the 400 "URL empty" response when the array is absent or empty — or when
its first element is falsy (such as the empty string). -/
theorem claim_C7 (net : Net) (parse : Parse) (now : Nat) (jobs : Jobs)
    (a tid k p : String) (r : FetchResult)
    (hk : getApiKeyFromReq a = some k)
    (hres : (fetchStatusWithFallback net parse tid k (preferredOf jobs tid)).result
      = .ok (some (p, r)))
    (hok : r.ok = true) :
    (jsToUpper (jsToStringOpt (jget2 r.data "data" "status")) ≠ "COMPLETED" →
      (resultHandler net parse now jobs a tid).1 =
        .notCompleted p (jget2 r.data "data" "status"))
    ∧ (jsToUpper (jsToStringOpt (jget2 r.data "data" "status")) = "COMPLETED" →
        (extractGeneratedUrl r.data = none →
          (resultHandler net parse now jobs a tid).1 = .emptyUrl p r.data)
        ∧ (∀ u, extractGeneratedUrl r.data = some u → jsFalsy u = true →
            (resultHandler net parse now jobs a tid).1 = .emptyUrl p r.data)
        ∧ (∀ u, extractGeneratedUrl r.data = some u → jsFalsy u = false →
            (resultHandler net parse now jobs a tid).1 = .ok u p)) := by
  refine ⟨?_, ?_⟩
  · intro hcomp
    simp [resultHandler, hk, hres, hok, hcomp]
  · intro hcomp
    refine ⟨?_, ?_, ?_⟩
    · intro hx
      simp [resultHandler, hk, hres, hok, hcomp, hx]
    · intro u hx hf
      simp [resultHandler, hk, hres, hok, hcomp, hx, hf]
    · intro u hx hf
      by_cases hmeta : (getJob jobs tid).isNone = true <;>
        simp [resultHandler, hk, hres, hok, hcomp, hx, hf, hmeta]

/-- C7 witness: COMPLETED with a real URL in data.generated returns that
URL with the resolved provider. -/
theorem claim_C7_witness :
    getApiKeyFromReq "Bearer k" = some "k"
    ∧ (resultHandler netB parseGoodUrl 0 [] "Bearer k" "t").1 =
        .ok (.str "https://cdn/video.mp4") "kling-2.5-pro" :=
  ⟨rfl,
    ((claim_C7 netB parseGoodUrl 0 [] "Bearer k" "t" "k" "kling-2.5-pro"
        ⟨decide (200 ≤ 200 ∧ 200 ≤ 299), 200, dGoodUrl⟩ rfl rfl rfl).2 rfl).2.2
      (.str "https://cdn/video.mp4") rfl rfl⟩

/-! ## C8: provider routing stability -/

/-- C8 counterexample: a create operation whose upstream response reuses an
already-stored task identifier overwrites that record with a different
provider — the store held ("t" → kling-2.5-pro) and afterwards holds
("t" → kling-2.1-pro). -/
theorem claim_C8_counterexample :
    getJob jobsT "t" = some ⟨"kling-2.5-pro", 0⟩
    ∧ getJob (step netB parseTaskT 5 jobsT (.create "Bearer k" bodyC8 (some "img"))) "t"
        = some ⟨"kling-2.1-pro", 5⟩
    ∧ ("kling-2.1-pro" : String) ≠ "kling-2.5-pro" :=
  ⟨rfl, rfl, by decide⟩

/-- C8 (amended): status and result operations never overwrite an existing
record; a create operation preserves an existing record whenever the
upstream-assigned task identifier differs from that record's key — so
providers stay stable for task identifiers the upstream does not reuse. -/
theorem claim_C8 (net : Net) (parse : Parse) (now : Nat) (jobs : Jobs)
    (tid0 : String) (v : JobRec) (hrec : getJob jobs tid0 = some v) :
    (∀ a tid, getJob (step net parse now jobs (.status a tid)) tid0 = some v)
    ∧ (∀ a tid, getJob (step net parse now jobs (.result a tid)) tid0 = some v)
    ∧ (∀ a b img,
        (∀ jid prov, (generateHandler net parse now jobs a b img).1 = .ok jid prov →
          jsToString jid ≠ tid0) →
        getJob (step net parse now jobs (.create a b img)) tid0 = some v) := by
  refine ⟨?_, ?_, ?_⟩
  · intro a tid
    show getJob (statusHandler net parse now jobs a tid).2 tid0 = some v
    rcases statusHandler_write net parse now jobs a tid with h | ⟨hnone, k, p, r, _, _, _, hsave⟩
    · rw [h]; exact hrec
    · have hne : tid ≠ tid0 := by
        intro he; rw [he] at hnone; rw [hnone] at hrec; cases hrec
      rw [hsave, saveJob, getJob_setJob_ne jobs tid ⟨p, now⟩ tid0 hne]
      exact hrec
  · intro a tid
    show getJob (resultHandler net parse now jobs a tid).2 tid0 = some v
    rcases resultHandler_write net parse now jobs a tid with
      h | ⟨hnone, k, p, r, u, _, _, _, _, _, hsave⟩
    · rw [h]; exact hrec
    · have hne : tid ≠ tid0 := by
        intro he; rw [he] at hnone; rw [hnone] at hrec; cases hrec
      rw [hsave, saveJob, getJob_setJob_ne jobs tid ⟨p, now⟩ tid0 hne]
      exact hrec
  · intro a b img hfresh
    show getJob (generateHandler net parse now jobs a b img).2 tid0 = some v
    rcases generateHandler_write net parse now jobs a b img with h | ⟨tidv, prov, hout, hsave⟩
    · rw [h]; exact hrec
    · have hne : jsToString tidv ≠ tid0 := hfresh tidv prov hout
      rw [hsave, saveJob, getJob_setJob_ne jobs (jsToString tidv) ⟨prov, now⟩ tid0 hne]
      exact hrec

/-- C8 witness: with a stored record ("t" → kling-2.5-pro), a status poll
and a create whose upstream assigns the fresh id "t2" both leave the
record intact. -/
theorem claim_C8_witness :
    getJob jobsT "t" = some ⟨"kling-2.5-pro", 0⟩
    ∧ getJob (step netB parseTask2 5 jobsT (.status "Bearer k" "t")) "t"
        = some ⟨"kling-2.5-pro", 0⟩
    ∧ getJob (step netB parseTask2 5 jobsT (.create "Bearer k" bodyDefault (some "img"))) "t"
        = some ⟨"kling-2.5-pro", 0⟩ :=
  ⟨rfl,
    (claim_C8 netB parseTask2 5 jobsT "t" ⟨"kling-2.5-pro", 0⟩ rfl).1 "Bearer k" "t",
    (claim_C8 netB parseTask2 5 jobsT "t" ⟨"kling-2.5-pro", 0⟩ rfl).2.2 "Bearer k"
      bodyDefault (some "img")
      (fun jid prov hjp => by
        have h2 : GenResp.ok (JVal.str "t2") "kling-2.5-pro" = GenResp.ok jid prov := hjp
        cases h2
        decide)⟩

/-! ## C10: lookups do not write -/

/-- C10: when the job map already holds a record for the task, the status
and result handlers leave the store unchanged; conversely, any change to
the store means no record existed, the resolution was an HTTP success
(with, for the result handler, a truthy generated URL extracted), and the
change is exactly the backfill write. -/
theorem claim_C10 (net : Net) (parse : Parse) (now : Nat) (jobs : Jobs)
    (a tid : String) :
    ((getJob jobs tid).isSome = true →
        (statusHandler net parse now jobs a tid).2 = jobs
        ∧ (resultHandler net parse now jobs a tid).2 = jobs)
    ∧ ((statusHandler net parse now jobs a tid).2 ≠ jobs →
        getJob jobs tid = none ∧ ∃ k p r,
          getApiKeyFromReq a = some k
          ∧ (fetchStatusWithFallback net parse tid k (preferredOf jobs tid)).result
              = .ok (some (p, r))
          ∧ r.ok = true
          ∧ (statusHandler net parse now jobs a tid).2 = saveJob jobs tid p now)
    ∧ ((resultHandler net parse now jobs a tid).2 ≠ jobs →
        getJob jobs tid = none ∧ ∃ k p r u,
          getApiKeyFromReq a = some k
          ∧ (fetchStatusWithFallback net parse tid k (preferredOf jobs tid)).result
              = .ok (some (p, r))
          ∧ r.ok = true
          ∧ extractGeneratedUrl r.data = some u
          ∧ jsFalsy u = false
          ∧ (resultHandler net parse now jobs a tid).2 = saveJob jobs tid p now) := by
  refine ⟨?_, ?_, ?_⟩
  · intro hsome
    constructor
    · rcases statusHandler_write net parse now jobs a tid with h | ⟨hnone, _⟩
      · exact h
      · rw [hnone] at hsome; cases hsome
    · rcases resultHandler_write net parse now jobs a tid with h | ⟨hnone, _⟩
      · exact h
      · rw [hnone] at hsome; cases hsome
  · intro hne
    rcases statusHandler_write net parse now jobs a tid with h | hw
    · exact absurd h hne
    · exact hw
  · intro hne
    rcases resultHandler_write net parse now jobs a tid with h | hw
    · exact absurd h hne
    · exact hw

/-- C10 witness: with an existing record for "t", a status poll leaves the
store exactly as it was. -/
theorem claim_C10_witness :
    (getJob jobsT "t").isSome = true
    ∧ (statusHandler netB parseTask2 0 jobsT "Bearer k" "t").2 = jobsT :=
  ⟨rfl, ((claim_C10 netB parseTask2 0 jobsT "Bearer k" "t").1 rfl).1⟩

/-- C2 witness: a 401 on the first candidate is returned as the answer and
the second candidate is never attempted. -/
theorem claim_C2_witness :
    (callProvider netC2 parseNone "t" "k" "kling-2.5-pro").1 =
        .ok ⟨decide (200 ≤ 401 ∧ 401 ≤ 299), 401, parseBody parseNone ""⟩
    ∧ fetchStatusWithFallback netC2 parseNone "t" "k" none =
        ⟨.ok (some ("kling-2.5-pro",
            ⟨decide (200 ≤ 401 ∧ 401 ≤ 299), 401, parseBody parseNone ""⟩)),
         ["kling-2.5-pro"]⟩ :=
  ⟨rfl,
    ((claim_C2 netC2 parseNone "t" "k" none) "kling-2.5-pro" "kling-2.1-pro" rfl).1
      ⟨decide (200 ≤ 401 ∧ 401 ≤ 299), 401, parseBody parseNone ""⟩
      rfl (Or.inl rfl)⟩

end RushGen
